import Mathlib

/-!
Verification of `src_3d/core/image_dataset.py` (`ImageDataProvider`).

This file shallowly embeds the parts of the data provider that the
specification's claims are about:

* the name pairing of `_find_data_names` (single / multi stage),
* the one-hot encoding of `_process_label`,
* the CT clipping branch of `_process_image` together with the
  `a_min` / `a_max` initialisation of `__init__`,
* the `kwargs.pop` state effect of `_process_image`,
* the foreground-mask utilities `_get_foreground_center` and
  `get_roi_coordinates`,
* the patch-geometry computation of `__getitem__` (crop-patch branch).

Python exceptions are modelled with `Except PyErr`; Python `//` is `Int.fdiv`
(floor division); the numpy `int16` casts of the source are made explicit.
Volumes are total functions from voxel coordinates to rational intensities
(the source stores float32 data; none of the claims depend on rounding of
binary floats, only on order comparisons and exact equalities, which the
rationals model).
-/

namespace ImageDataset

/-- Python exceptions that the embedded code can raise: `assert` failures,
reads of unbound local variables, and numpy `ValueError`s. -/
inductive PyErr where
  | assertionError (msg : String)
  | nameError (var : String)
  | valueError (msg : String)
  deriving DecidableEq, Repr

instance {ε α : Type} [DecidableEq ε] [DecidableEq α] : DecidableEq (Except ε α) :=
  fun a b =>
    match a, b with
    | .ok x, .ok y =>
      match decEq x y with
      | isTrue h => isTrue (by rw [h])
      | isFalse h => isFalse (by intro hc; cases hc; exact h rfl)
    | .error x, .error y =>
      match decEq x y with
      | isTrue h => isTrue (by rw [h])
      | isFalse h => isFalse (by intro hc; cases hc; exact h rfl)
    | .ok _, .error _ => isFalse (by intro hc; cases hc)
    | .error _, .ok _ => isFalse (by intro hc; cases hc)

/-- Conversion to numpy `int16` (wrap-around two's complement), as performed by
`np.asarray(..., dtype=np.int16)` and by arithmetic on `int16` arrays. -/
def int16 (z : ℤ) : ℤ := (z + 32768) % 65536 - 32768

/-- Python's floor division `//` on integers. -/
def pyFloorDiv (a b : ℤ) : ℤ := Int.fdiv a b

/-- The shape tuple of a 3-dimensional array with dimensions `nx, ny, nz`. -/
def shape3 (nx ny nz : ℕ) : Fin 3 → ℤ :=
  fun i => if i.val = 0 then (nx : ℤ) else if i.val = 1 then (ny : ℤ) else (nz : ℤ)

/-- A 3-dimensional volume of scalar intensities. -/
def Vol (nx ny nz : ℕ) : Type := Fin nx → Fin ny → Fin nz → ℚ

/-- The coordinate triple of a voxel, as the integer vector numpy's `np.where` /
`np.argwhere` would report for it. -/
def coordOf {nx ny nz : ℕ} (p : Fin nx × Fin ny × Fin nz) : Fin 3 → ℤ :=
  fun i => if i.val = 0 then (p.1.val : ℤ) else if i.val = 1 then (p.2.1.val : ℤ) else (p.2.2.val : ℤ)

/-- `np.around` on a scalar: round half to even. -/
def np_around (q : ℚ) : ℤ :=
  let f := ⌊q⌋
  let r := q - (f : ℚ)
  if r < 1 / 2 then f
  else if 1 / 2 < r then f + 1
  else if Even f then f else f + 1

/-- `np.clip(x, lo, hi)`: `min (max x lo) hi`, where an absent bound
(`None` / `-np.inf` for `lo`, `None` / `np.inf` for `hi`) leaves the value on
that side untouched. -/
def np_clip (x : ℚ) (lo hi : Option ℚ) : ℚ :=
  let y := match lo with
    | some l => max x l
    | none => x
  match hi with
  | some h => min y h
  | none => y

/-- Whether the character list `p` is an initial segment of `s`. -/
def leadsWith : List Char → List Char → Bool
  | [], _ => true
  | _ :: _, [] => false
  | a :: ps, b :: ss => (a == b) && leadsWith ps ss

/-- Python's substring test `sub in s` on strings (given as character lists). -/
def occursIn (sub : List Char) : List Char → Bool
  | [] => sub.isEmpty
  | c :: tail => leadsWith sub (c :: tail) || occursIn sub tail

/-- `os.path.basename`: the part of a path after its last `/`. -/
def basename (s : List Char) : List Char :=
  ((s.reverse.takeWhile (fun c => !(c == '/'))).reverse)

/-- Normalisation of one Python slice index against a length-`n` sequence:
negative indices count from the end, and the result is clamped to `[0, n]`. -/
def pyIndex (n : ℕ) (i : ℤ) : ℕ :=
  let j := if i < 0 then i + (n : ℤ) else i
  (min (max j 0) (n : ℤ)).toNat

/-- Python's slice `s[b:e]` on a character list. -/
def pySlice (s : List Char) (b e : ℤ) : List Char :=
  (s.drop (pyIndex s.length b)).take (pyIndex s.length e - pyIndex s.length b)

/-- `itertools.combinations(l, n)`: all length-`n` subsequences of `l`, in the
order `itertools` emits them. -/
def combinations {α : Type} : ℕ → List α → List (List α)
  | 0, _ => [[]]
  | _ + 1, [] => []
  | n + 1, a :: l => ((combinations n l).map (fun c => a :: c)) ++ combinations (n + 1) l

/-- `itertools.product(target_names, comb_atlas_names)` of the single-stage
branch of `_find_data_names` (line 310): every target paired with every atlas
combination, targets outermost. -/
def single_pairs (combs : List (List String)) : List String → List (String × List String)
  | [] => []
  | t :: ts => combs.map (fun c => (t, c)) ++ single_pairs combs ts

/-- The correlation key `'target-' + t_name[begin:end]` built from a target
path in the multi-stage branch of `_find_data_names` (line 293). -/
def correlation_key (ibegin iend : ℤ) (target : String) : List Char :=
  "target-".toList ++ pySlice (basename target.toList) ibegin iend

/-- The multi-stage branch of `_find_data_names` (lines 288-301): for each
target, the atlas pool is filtered to the names containing the target's
correlation key, combinations are drawn from the filtered pool, and the
per-target lists are chained. -/
def multi_pairs (ibegin iend : ℤ) (n_atlas : ℕ) (atlas_names : List String) :
    List String → List (String × List String)
  | [] => []
  | t :: ts =>
    ((combinations n_atlas
        (atlas_names.filter (fun nm => occursIn (correlation_key ibegin iend t) nm.toList))).map
      (fun c => (t, c)))
      ++ multi_pairs ibegin iend n_atlas atlas_names ts

/-- The `stage` configuration parameter. -/
inductive Stage where
  | single
  | multi
  deriving DecidableEq

/-- `_find_data_names` (lines 276-312), after the out-of-scope glob/sort step:
filter both file lists by the suffix test `name_suffix in name`, assert that
at least one target remains, and build the target-to-atlas-combination
pairing according to the stage. -/
def find_data_names (stage : Stage) (n_atlas : ℕ) (ibegin iend : ℤ)
    (all_target_files all_atlas_files : List String) (name_suffix : String) :
    Except PyErr (List (String × List String)) :=
  let target_names := all_target_files.filter (fun nm => occursIn name_suffix.toList nm.toList)
  if target_names.length = 0 then
    .error (.assertionError "No training targets!")
  else
    let atlas_names := all_atlas_files.filter (fun nm => occursIn name_suffix.toList nm.toList)
    match stage with
    | .multi => .ok (multi_pairs ibegin iend n_atlas atlas_names target_names)
    | .single => .ok (single_pairs (combinations n_atlas atlas_names) target_names)

/-- `_process_label` (lines 327-342): round the ground truth, set channel `k`
(for `k ≥ 1`) to the indicator of `gt == label_intensity[k]`, and set channel
`0` to `np.logical_not` of the sum of the other channels.  The output type
records the shape `[1, nx, ny, nz, n_class]` produced by `np.expand_dims`. -/
def process_label {nx ny nz n_class : ℕ} (label_intensity : Fin n_class → ℤ)
    (gt : Vol nx ny nz) :
    Fin 1 → Fin nx → Fin ny → Fin nz → Fin n_class → ℚ :=
  fun _ x y z k =>
    let g := np_around (gt x y z)
    if k.val = 0 then
      (if (∑ j ∈ Finset.univ.filter (fun j : Fin n_class => 0 < j.val),
            (if g = label_intensity j then (1 : ℚ) else 0)) = 0 then 1 else 0)
    else (if g = label_intensity k then 1 else 0)

/-- `self.a_min` as stored by `__init__` (line 78): the configured bound, or
`-np.inf` (no lower bound, modelled as `none`) when unset. -/
def init_a_min (a_min : Option ℚ) : Option ℚ := a_min

/-- `self.a_max` as stored by `__init__` (line 79):
`a_max if a_min is not None else np.inf`.  The tested option is `a_min`, so
the stored value is the configured `a_max` only when `a_min` is set, and
`np.inf` (no upper bound, modelled as `none`) otherwise.  A stored Python
`None` also imposes no upper bound in `np.clip`, so both are `none`. -/
def init_a_max (a_min a_max : Option ℚ) : Option ℚ :=
  match a_min, a_max with
  | some _, m => m
  | none, _ => none

/-- The `ct` arm of `_process_image` (lines 354-355): pointwise
`np.clip(data, self.a_min, self.a_max)` with the stored bounds.  (The `mr`
arm clips against a percentile of the data and is not touched by any claim.) -/
def process_image_ct_clip {nx ny nz : ℕ} (stored_a_min stored_a_max : Option ℚ)
    (data : Vol nx ny nz) : Vol nx ny nz :=
  fun x y z => np_clip (data x y z) stored_a_min stored_a_max

/-- `self.kwargs.pop("normalization_method", 'z-score')` as executed by
`_process_image` (line 363) when `normalization` is on: returns the method
used by the call together with the provider's `kwargs` dict after the call.
`pop` removes the key from the dict (dict keys are unique, so filtering every
binding of the key from the association list models the removal); when the
key is absent the default `'z-score'` is returned and the dict is unchanged. -/
def process_image_pop_method (kwargs : List (String × String)) :
    String × List (String × String) :=
  match kwargs.lookup "normalization_method" with
  | some v => (v, kwargs.filter (fun p => !(p.1 == "normalization_method")))
  | none => ("z-score", kwargs)

/-- One voxel of the foreground mask built by `_get_foreground_center`,
`get_roi_coordinates` and `_get_random_patch_center_covering_foreground`:
the union over the non-background intensities (`label_intensity[1:]`) of
`label == k`. -/
def foreground_flag (fg_intensities : List ℤ) (v : ℚ) : Bool :=
  fg_intensities.any (fun k => v == (k : ℚ))

/-- The set of foreground voxels of a label volume. -/
def maskSet {nx ny nz : ℕ} (fg_intensities : List ℤ) (lbl : Vol nx ny nz) :
    Finset (Fin nx × Fin ny × Fin nz) :=
  Finset.univ.filter (fun p => foreground_flag fg_intensities (lbl p.1 p.2.1 p.2.2) = true)

/-- `_get_foreground_center` (lines 391-400).  On a non-empty mask it returns
the per-axis floor of the mean foreground coordinate, cast to `int16`.  On an
empty mask the source does NOT raise: `np.mean` over an empty axis yields
`NaN` with only a runtime warning, and `np.floor(...).astype(np.int16)` then
completes with an unspecified integer value; this normally-returned but
unspecified result is modelled as `.ok none`. -/
def get_foreground_center {nx ny nz : ℕ} (label_intensity : List ℤ) (lbl : Vol nx ny nz) :
    Except PyErr (Option (Fin 3 → ℤ)) :=
  let s := maskSet (label_intensity.drop 1) lbl
  if _h : s.Nonempty then
    .ok (some (fun i => int16 ⌊(∑ p ∈ s, ((coordOf p i : ℤ) : ℚ)) / (s.card : ℚ)⌋))
  else
    .ok none

/-- `get_roi_coordinates` (lines 402-422).  `np.min` / `np.max` over the
(empty) coordinate list of an empty mask raise a `ValueError`; otherwise the
per-axis extremes are widened by the magnification margin, floored, and
clamped to the volume bounds. -/
def get_roi_coordinates {nx ny nz : ℕ} (label_intensity : List ℤ) (lbl : Vol nx ny nz)
    (mag_rate : ℚ) : Except PyErr ((Fin 3 → ℤ) × (Fin 3 → ℤ)) :=
  let s := maskSet (label_intensity.drop 1) lbl
  if h : s.Nonempty then
    let low : Fin 3 → ℤ := fun i => s.inf' h (fun p => coordOf p i)
    let high : Fin 3 → ℤ := fun i => s.sup' h (fun p => coordOf p i)
    .ok (fun i => max ⌊(low i : ℚ) - ((high i : ℚ) - (low i : ℚ)) * mag_rate / 2⌋ 0,
         fun i => min ⌊(high i : ℚ) + ((high i : ℚ) - (low i : ℚ)) * mag_rate / 2⌋
                    (shape3 nx ny nz i - 1))
  else
    .error (.valueError "zero-size array to reduction operation minimum which has no identity")

/-- The crop-policy configuration read by the crop-patch branch of
`__getitem__`: `self.patch_size` before its `int16` conversion,
`self.patch_center` (`some` models a caller-supplied non-empty tuple, which
is truthy), and the `random_crop` / `crop_roi` flags. -/
structure CropConfig where
  patch_size : Fin 3 → ℤ
  patch_center : Option (Fin 3 → ℤ)
  random_crop : Bool
  crop_roi : Bool

/-- A numpy operand of the source expressions: either a scalar (`none` models
a `NaN`-valued scalar) or a length-3 array. -/
inductive NpVal where
  | scalar : Option ℤ → NpVal
  | arr : (Fin 3 → ℤ) → NpVal

/-- Python's builtin `max` on numpy operands.  Comparing a multi-element
array with anything produces a boolean array, whose conversion to `bool`
raises a `ValueError`; on two scalars it is the ordinary maximum, with an
unspecified (`none`) result once a `NaN` is involved. -/
def pyMax : NpVal → NpVal → Except PyErr (Option ℤ)
  | .scalar (some a), .scalar (some b) => .ok (some (max a b))
  | .scalar _, .scalar _ => .ok none
  | _, _ => .error (.valueError "The truth value of an array with more than one element is ambiguous")

/-- Python's builtin `min` on numpy operands, mirror image of `pyMax`. -/
def pyMin : NpVal → NpVal → Except PyErr (Option ℤ)
  | .scalar (some a), .scalar (some b) => .ok (some (min a b))
  | .scalar _, .scalar _ => .ok none
  | _, _ => .error (.valueError "The truth value of an array with more than one element is ambiguous")

/-- `np.random.randint(lo, hi)`: one draw from the external random source
`rand` when the half-open range is non-empty, and a `ValueError` otherwise. -/
def np_randint (rand : ℤ → ℤ → ℤ) (lo hi : ℤ) : Except PyErr ℤ :=
  if lo < hi then .ok (rand lo hi) else .error (.valueError "low >= high")

/-- One axis of the unconstrained random patch center (lines 173-176):
`np.random.randint(ps[i] // 2, shape[i] + ps[i] // 2 - ps[i] + 1)`. -/
def random_center_axis (ps shape : Fin 3 → ℤ) (rand : Fin 3 → ℤ → ℤ → ℤ) (i : Fin 3) :
    Except PyErr ℤ :=
  np_randint (rand i) (pyFloorDiv (ps i) 2) (shape i + pyFloorDiv (ps i) 2 - ps i + 1)

/-- The unconstrained random patch center (lines 173-176): the axes are drawn
left to right (a list comprehension), the first failure propagating, and the
resulting triple is cast to `int16`. -/
def random_center (ps shape : Fin 3 → ℤ) (rand : Fin 3 → ℤ → ℤ → ℤ) :
    Except PyErr (Fin 3 → ℤ) :=
  match random_center_axis ps shape rand 0 with
  | .error e => .error e
  | .ok c0 =>
    match random_center_axis ps shape rand 1 with
    | .error e => .error e
    | .ok c1 =>
      match random_center_axis ps shape rand 2 with
      | .error e => .error e
      | .ok c2 => .ok (fun i => int16 (if i.val = 0 then c0 else if i.val = 1 then c1 else c2))

/-- One axis of the foreground-constrained random center (lines 180-184).
The lower bound of the source is
`max(roi_center[i] - ps[i] + ps[i] // 2 + 1, self.patch_size // 2)`: the
second operand is the WHOLE `patch_size` array (the `[i]` index is missing),
so builtin `max` receives a scalar and a length-3 array.  `roi_center` may be
`none` (the `NaN` triple a foreground-free label produces). -/
def roi_random_center_axis (ps shape : Fin 3 → ℤ) (roi_center : Option (Fin 3 → ℤ))
    (rand : Fin 3 → ℤ → ℤ → ℤ) (i : Fin 3) : Except PyErr ℤ :=
  match pyMax (.scalar ((roi_center.map
            (fun c => c i - ps i + pyFloorDiv (ps i) 2 + 1))))
         (.arr (fun j => pyFloorDiv (ps j) 2)) with
  | .error e => .error e
  | .ok lo =>
    match pyMin (.scalar ((roi_center.map (fun c => c i + pyFloorDiv (ps i) 2))))
           (.scalar (some (shape i + pyFloorDiv (ps i) 2 - ps i + 1))) with
    | .error e => .error e
    | .ok hi =>
      match lo, hi with
      | some l, some h => np_randint (rand i) l h
      | _, _ => .error (.valueError "cannot convert float NaN to integer")

/-- The foreground-constrained random center (lines 180-184), axes drawn left
to right with the first failure propagating. -/
def roi_random_center (ps shape : Fin 3 → ℤ) (roi_center : Option (Fin 3 → ℤ))
    (rand : Fin 3 → ℤ → ℤ → ℤ) : Except PyErr (Fin 3 → ℤ) :=
  match roi_random_center_axis ps shape roi_center rand 0 with
  | .error e => .error e
  | .ok c0 =>
    match roi_random_center_axis ps shape roi_center rand 1 with
    | .error e => .error e
    | .ok c1 =>
      match roi_random_center_axis ps shape roi_center rand 2 with
      | .error e => .error e
      | .ok c2 => .ok (fun i => int16 (if i.val = 0 then c0 else if i.val = 1 then c1 else c2))

/-- The `if/elif/else` chain of lines 169-190, which selects the patch-center
policy.  Its result records which of the LOCAL VARIABLES read later are bound:
the first four branches assign only `patch_center` (returned as the first
component), while `target_patch_center` and `atlas_patch_center` (the second
and third components) are assigned only in the final `else` branch.  Each
branch still evaluates exactly the expressions the source evaluates, so their
exceptions propagate. -/
def select_patch_centers {nx ny nz : ℕ} (cfg : CropConfig) (label_intensity : List ℤ)
    (target_image_shape atlases_image_shape : Fin 3 → ℤ) (target_label : Vol nx ny nz)
    (rand : Fin 3 → ℤ → ℤ → ℤ) :
    Except PyErr (Option (Fin 3 → ℤ) × Option (Fin 3 → ℤ) × Option (Fin 3 → ℤ)) :=
  let ps : Fin 3 → ℤ := fun i => int16 (cfg.patch_size i)
  if cfg.patch_center.isSome then
    .ok (cfg.patch_center.map (fun c i => int16 (c i)), none, none)
  else if cfg.random_crop && !cfg.crop_roi then
    match random_center ps (shape3 nx ny nz) rand with
    | .error e => .error e
    | .ok c => .ok (some c, none, none)
  else if cfg.random_crop && cfg.crop_roi then
    match get_foreground_center label_intensity target_label with
    | .error e => .error e
    | .ok roi_center =>
      match roi_random_center ps (shape3 nx ny nz) roi_center rand with
      | .error e => .error e
      | .ok c => .ok (some c, none, none)
  else if !cfg.random_crop && cfg.crop_roi then
    match get_foreground_center label_intensity target_label with
    | .error e => .error e
    | .ok roi_center => .ok ((roi_center.map (fun c i => c i)), none, none)
  else
    .ok (none,
         some (fun i => pyFloorDiv (int16 (target_image_shape i)) 2),
         some (fun i => pyFloorDiv (int16 (atlases_image_shape i)) 2))

/-- The slicing bounds and normalised center computed by the crop-patch
branch. -/
structure Geometry where
  target_begin : Fin 3 → ℤ
  target_end : Fin 3 → ℤ
  atlas_begin : Fin 3 → ℤ
  atlas_end : Fin 3 → ℤ
  center_percent : Fin 3 → ℚ

/-- The crop-patch branch of `__getitem__` (lines 164-199): the two patch-size
assertions, the center-policy chain, and the derivation of the slicing
bounds.  Lines 193-199 read the locals `target_patch_center` and
`atlas_patch_center`; when the selected policy branch did not assign them
(every branch except the final `else`), the read raises an
`UnboundLocalError` — modelled as `PyErr.nameError` — and the bound local
`patch_center` is never used.  Arithmetic on the `int16` arrays wraps, hence
the `int16` around the bounds.  (`center_percent` divides by the label shape;
a zero dimension would make numpy emit `inf`/`NaN` here, while rational
division yields `0` — no claim depends on that corner.) -/
def getitem_patch_geometry {nx ny nz : ℕ} (cfg : CropConfig) (label_intensity : List ℤ)
    (target_image_shape atlases_image_shape atlases_label_shape : Fin 3 → ℤ)
    (target_label : Vol nx ny nz) (rand : Fin 3 → ℤ → ℤ → ℤ) :
    Except PyErr Geometry :=
  let ps : Fin 3 → ℤ := fun i => int16 (cfg.patch_size i)
  if ¬ (∀ i, ps i ≤ shape3 nx ny nz i) then
    .error (.assertionError "Patch size exceeds dimension size! (target)")
  else if ¬ (∀ i, ps i ≤ atlases_label_shape i) then
    .error (.assertionError "Patch size exceeds dimension size! (atlas)")
  else
    match select_patch_centers cfg label_intensity target_image_shape atlases_image_shape
            target_label rand with
    | .error e => .error e
    | .ok (_, some tc, some ac) =>
      .ok { target_begin := fun i => int16 (tc i - pyFloorDiv (ps i) 2)
            target_end := fun i => int16 (tc i - pyFloorDiv (ps i) 2 + ps i)
            atlas_begin := fun i => int16 (ac i - pyFloorDiv (ps i) 2)
            atlas_end := fun i => int16 (ac i - pyFloorDiv (ps i) 2 + ps i)
            center_percent := fun i => ((tc i : ℚ)) / ((shape3 nx ny nz i : ℤ) : ℚ) }
    | .ok (_, _, _) => .error (.nameError "target_patch_center")

/-- Whether an embedded computation failed with an `assert` failure. -/
def raised_assertion {α : Type} : Except PyErr α → Bool
  | .error (.assertionError _) => true
  | _ => false

/-- A fixed-center crop configuration: `patch_size = (1,1,1)`,
`patch_center = (0,0,0)`. -/
def cfgFixedCenter : CropConfig :=
  { patch_size := fun _ => 1, patch_center := some (fun _ => 0),
    random_crop := false, crop_roi := false }

/-- A foreground-constrained random crop configuration:
`patch_size = (1,1,1)`, `random_crop` and `crop_roi` both set. -/
def cfgRoiRandom : CropConfig :=
  { patch_size := fun _ => 1, patch_center := none,
    random_crop := true, crop_roi := true }

/-- An out-of-bounds fixed-center configuration: `patch_size = (4,4,4)` with
`patch_center = (0,0,0)`, so `center - size/2 = -2 < 0` on every axis. -/
def cfgOutOfBounds : CropConfig :=
  { patch_size := fun _ => 4, patch_center := some (fun _ => 0),
    random_crop := false, crop_roi := false }

/-- C1: with `crop_patch` enabled and a fixed `patch_center` configured (here
`(0,0,0)` on a `1x1x1` volume with `patch_size = (1,1,1)`, so both patch-size
assertions pass), `__getitem__` does not crop at the supplied center: the
branch binds the local `patch_center` but the slicing bounds of lines 193-199
read `target_patch_center`, which no branch except the final `else` assigns,
so the sample fails with an `UnboundLocalError` instead of producing the
claimed bounds `begin = center - size/2`, `end = begin + size`. -/
theorem C1_fixed_center_unbound_local :
    getitem_patch_geometry cfgFixedCenter [0, 205]
      (fun _ => 1) (fun _ => 1) (fun _ => 1) ((fun _ _ _ => 0) : Vol 1 1 1) (fun _ _ _ => 0)
      = Except.error (PyErr.nameError "target_patch_center") := rfl

/-- C2: with `crop_patch`, `random_crop` and `crop_roi` all enabled and no
fixed `patch_center` (here on a `1x1x1` all-foreground volume with
`patch_size = (1,1,1)`, so the assertions pass and the foreground center is
defined), no patch center is drawn at all: the lower randint bound of line
180-181 passes the WHOLE `self.patch_size // 2` array (the `[i]` index is
missing) to builtin `max`, whose comparison of a scalar against a length-3
array raises a `ValueError` before any sampling. -/
theorem C2_roi_random_value_error :
    getitem_patch_geometry cfgRoiRandom [0, 205]
      (fun _ => 1) (fun _ => 1) (fun _ => 1) ((fun _ _ _ => 205) : Vol 1 1 1) (fun _ _ _ => 0)
      = Except.error (PyErr.valueError
          "The truth value of an array with more than one element is ambiguous") := rfl

/-- C3: with `a_min` unset and `a_max = 100` configured, `__init__` stores
`a_max = np.inf` (line 79 tests `a_min is not None` instead of `a_max`), so a
CT voxel of intensity `200` survives clipping unchanged instead of being
clipped to the configured `100`. -/
theorem C3_a_max_ignored_when_a_min_unset :
    init_a_max none (some 100) = none ∧
    process_image_ct_clip
      (init_a_min none) (init_a_max none (some 100)) ((fun _ _ _ => 200) : Vol 1 1 1) 0 0 0 = 200 :=
  ⟨rfl, rfl⟩

/-- C4: `_process_image` mutates the provider's stored configuration: with
`normalization_method = 'min-max'` configured, the first normalized call pops
the key (leaving `kwargs` empty) and uses `min-max`, and the second call falls
back to the default `z-score`, so repeated calls do not all use the configured
method. -/
theorem C4_normalization_method_consumed :
    (process_image_pop_method [("normalization_method", "min-max")]).1 = "min-max" ∧
    (process_image_pop_method [("normalization_method", "min-max")]).2 = [] ∧
    (process_image_pop_method
      (process_image_pop_method [("normalization_method", "min-max")]).2).1 = "z-score" :=
  ⟨rfl, rfl, rfl⟩

/-- C5, counterexample: a configuration whose fixed center violates
`0 <= center - size/2` (`patch_center = (0,0,0)`, `patch_size = (4,4,4)` on a
`4x4x4` volume) does NOT fail with an assertion as the claim states: both
patch-size assertions pass, and the sample instead dies reading the unbound
local `target_patch_center`. -/
theorem C5_counterexample :
    raised_assertion (getitem_patch_geometry
        cfgOutOfBounds [0, 205] (fun _ => 4) (fun _ => 4) (fun _ => 4)
        ((fun _ _ _ => 0) : Vol 4 4 4) (fun _ _ _ => 0)) = false ∧
    getitem_patch_geometry
        cfgOutOfBounds [0, 205] (fun _ => 4) (fun _ => 4) (fun _ => 4)
        ((fun _ _ _ => 0) : Vol 4 4 4) (fun _ _ _ => 0)
      = Except.error (PyErr.nameError "target_patch_center") :=
  ⟨rfl, rfl⟩

/-- C6, counterexample: with the (constructor-accepted) intensity table
`(0, 5, 5)`, a voxel of rounded intensity `5` activates channels 1 and 2
simultaneously, so the channels of `_process_label` sum to `2`, not `1`:
the claimed sum-to-one property needs the foreground intensities to be
pairwise distinct. -/
theorem C6_counterexample :
    (∑ k : Fin 3, process_label ![0, 5, 5]
        ((fun _ _ _ => 5) : Vol 1 1 1) 0 0 0 0 k) = 2 := by
  rw [Fin.sum_univ_three]
  norm_num [process_label, np_around, Finset.sum_filter, Fin.sum_univ_three,
    Matrix.cons_val_zero, Matrix.cons_val_one, Matrix.head_cons,
    Matrix.cons_val_two, Matrix.tail_cons, Int.floor_intCast]
  rw [if_neg (by decide)]
  norm_num

/-- C7, counterexample: on a `1x1x1` label volume with no foreground voxel
(`label_intensity = (0, 205)`, voxel value `1`), `_get_foreground_center`
does NOT fail: `np.mean` over the empty mask yields `NaN` with only a runtime
warning and the floor/`int16` cast completes, so the call returns normally
(with an unspecified value) rather than raising. -/
theorem C7_counterexample :
    get_foreground_center [0, 205]
      ((fun _ _ _ => 1) : Vol 1 1 1) = Except.ok none := rfl

/-- C6 (amended): for every label volume, `_process_label` returns a tensor
of shape `[1, nx, ny, nz, n_class]` in which channel `k` (for `1 ≤ k`) is the
indicator of the rounded label equalling `label_intensity[k]` and channel `0`
is the logical NOT of the union of the other channels; PROVIDED the
foreground intensities `label_intensity[1:]` are pairwise distinct, the
channels sum to exactly 1 at every voxel. -/
theorem C6_amended {nx ny nz n_class : ℕ} (hnc : 0 < n_class)
    (label_intensity : Fin n_class → ℤ) (gt : Vol nx ny nz)
    (hdist : ∀ j k : Fin n_class, j.val ≠ 0 → k.val ≠ 0 →
        label_intensity j = label_intensity k → j = k)
    (b : Fin 1) (x : Fin nx) (y : Fin ny) (z : Fin nz) :
    (∀ k : Fin n_class, k.val ≠ 0 →
        process_label label_intensity gt b x y z k =
          if np_around (gt x y z) = label_intensity k then 1 else 0) ∧
    (process_label label_intensity gt b x y z ⟨0, hnc⟩ =
        if ∀ k : Fin n_class, k.val ≠ 0 → np_around (gt x y z) ≠ label_intensity k
        then 1 else 0) ∧
    (∑ k : Fin n_class, process_label label_intensity gt b x y z k) = 1 := by
  classical
  set g := np_around (gt x y z) with hg
  set S : Finset (Fin n_class) := Finset.univ.filter (fun j : Fin n_class => 0 < j.val) with hS
  have hcard : (∑ j ∈ S, (if g = label_intensity j then (1 : ℚ) else 0))
      = ((S.filter (fun j => g = label_intensity j)).card : ℚ) := Finset.sum_boole _ _
  have hle : (S.filter (fun j => g = label_intensity j)).card ≤ 1 := by
    refine Finset.card_le_one.mpr ?_
    intro a ha a' ha'
    simp only [hS, Finset.mem_filter, Finset.mem_univ, true_and] at ha ha'
    exact hdist a a' (Nat.pos_iff_ne_zero.mp ha.1) (Nat.pos_iff_ne_zero.mp ha'.1)
      (ha.2.symm.trans ha'.2)
  have hzero : ((S.filter (fun j => g = label_intensity j)).card = 0)
      ↔ (∀ k : Fin n_class, k.val ≠ 0 → g ≠ label_intensity k) := by
    rw [Finset.card_eq_zero, Finset.filter_eq_empty_iff]
    constructor
    · intro h k hk hgk
      exact h (Finset.mem_filter.mpr ⟨Finset.mem_univ _, Nat.pos_iff_ne_zero.mpr hk⟩) hgk
    · intro h j hj
      simp only [hS, Finset.mem_filter, Finset.mem_univ, true_and] at hj
      exact h j (Nat.pos_iff_ne_zero.mp hj)
  have hchan : ∀ k : Fin n_class, k.val ≠ 0 →
      process_label label_intensity gt b x y z k =
        if g = label_intensity k then 1 else 0 := by
    intro k hk
    simp only [process_label]
    rw [← hg, ← hS, if_neg hk]
  have hch0 : process_label label_intensity gt b x y z ⟨0, hnc⟩
      = if (∑ j ∈ S, (if g = label_intensity j then (1 : ℚ) else 0)) = 0
        then 1 else 0 := by
    simp only [process_label]
    rw [← hg, ← hS]
    simp only [if_true]
  refine ⟨hchan, ?_, ?_⟩
  · rw [hch0, hcard]
    exact if_congr (by rw [Nat.cast_eq_zero]; exact hzero) rfl rfl
  · have hsplit := Finset.sum_filter_add_sum_filter_not Finset.univ
      (fun j : Fin n_class => 0 < j.val)
      (fun k => process_label label_intensity gt b x y z k)
    have hnotS : Finset.univ.filter (fun j : Fin n_class => ¬ 0 < j.val)
        = {(⟨0, hnc⟩ : Fin n_class)} := by
      ext j
      simp [Fin.ext_iff, Nat.not_lt, Nat.le_zero]
    have hSsum : (∑ j ∈ S, process_label label_intensity gt b x y z j)
        = ∑ j ∈ S, (if g = label_intensity j then (1 : ℚ) else 0) := by
      refine Finset.sum_congr rfl ?_
      intro j hj
      simp only [hS, Finset.mem_filter, Finset.mem_univ, true_and] at hj
      exact hchan j (Nat.pos_iff_ne_zero.mp hj)
    rw [← hsplit, hnotS, Finset.sum_singleton, hSsum, hcard, hch0, hcard]
    rcases Nat.le_one_iff_eq_zero_or_eq_one.mp hle with hc | hc <;> rw [hc] <;> norm_num

/-- C6 (amended), witness: with `label_intensity = (0, 205)` (distinct
foreground intensities) on a constant-205 `1x1x1` volume, the channel
characterisations hold and the channels sum to 1. -/
theorem C6_amended_witness :
    (∀ k : Fin 2, k.val ≠ 0 →
        process_label ![0, 205]
          ((fun _ _ _ => 205) : Vol 1 1 1) 0 0 0 0 k =
          if np_around 205 = (![0, 205] : Fin 2 → ℤ) k then 1 else 0) ∧
    (process_label ![0, 205]
        ((fun _ _ _ => 205) : Vol 1 1 1) 0 0 0 0 ⟨0, by norm_num⟩ =
        if ∀ k : Fin 2, k.val ≠ 0 → np_around 205 ≠ (![0, 205] : Fin 2 → ℤ) k
        then 1 else 0) ∧
    (∑ k : Fin 2, process_label ![0, 205]
        ((fun _ _ _ => 205) : Vol 1 1 1) 0 0 0 0 k) = 1 :=
  C6_amended (by norm_num) ![0, 205] ((fun _ _ _ => 205) : Vol 1 1 1) (by decide) 0 0 0 0

/-- C7 (amended): on every label volume whose foreground mask is empty,
`get_roi_coordinates` fails with an error (`np.min` over the empty coordinate
set raises a `ValueError`), but `_get_foreground_center` does not: it
completes normally and returns an (unspecified, `NaN`-derived) value. -/
theorem C7_amended {nx ny nz : ℕ} (label_intensity : List ℤ) (lbl : Vol nx ny nz)
    (mag_rate : ℚ)
    (hempty : ∀ x y z, foreground_flag (label_intensity.drop 1) (lbl x y z) = false) :
    get_roi_coordinates label_intensity lbl mag_rate
      = Except.error (PyErr.valueError
          "zero-size array to reduction operation minimum which has no identity") ∧
    get_foreground_center label_intensity lbl = Except.ok none := by
  have hmask : maskSet (label_intensity.drop 1) lbl = ∅ := by
    simp only [maskSet, Finset.filter_eq_empty_iff]
    intro p _
    rw [hempty p.1 p.2.1 p.2.2]
    simp
  have hno : ¬ (maskSet (label_intensity.drop 1) lbl).Nonempty := by
    rw [hmask]
    exact Finset.not_nonempty_empty
  refine ⟨?_, ?_⟩
  · simp only [get_roi_coordinates]
    rw [dif_neg hno]
  · simp only [get_foreground_center]
    rw [dif_neg hno]

/-- C7 (amended), witness: a `1x1x1` volume of constant intensity `1` with
`label_intensity = (0, 205)` has an empty foreground mask; the ROI
computation errors while the centroid computation returns normally. -/
theorem C7_amended_witness :
    get_roi_coordinates [0, 205]
        ((fun _ _ _ => 1) : Vol 1 1 1) (1 / 10)
      = Except.error (PyErr.valueError
          "zero-size array to reduction operation minimum which has no identity") ∧
    get_foreground_center [0, 205]
        ((fun _ _ _ => 1) : Vol 1 1 1) = Except.ok none :=
  C7_amended [0, 205] ((fun _ _ _ => 1) : Vol 1 1 1) (1 / 10) (by decide)

/-- Python `// 2` agrees with Lean's Euclidean division by 2. -/
theorem pyFloorDiv_two (a : ℤ) : pyFloorDiv a 2 = a / 2 :=
  Int.fdiv_eq_ediv a (by norm_num)

/-- Every array shape entry is non-negative. -/
theorem shape3_nonneg (nx ny nz : ℕ) (i : Fin 3) : 0 ≤ shape3 nx ny nz i := by
  simp only [shape3]
  split_ifs <;> positivity

/-- C5 (amended): with patch cropping enabled, image shapes matching their
paired label shapes, and all shapes within the `int16` range, every patch
geometry the code successfully computes satisfies `0 ≤ begin` and
`end ≤ volume_shape` on every axis, for the target (against the target label
shape) and for the atlases (against the atlas label shape).  (Because of the
unbound-local bug, only the default volume-center policy completes; a
configuration whose requested center violates the bounds fails with an
`UnboundLocalError` — not with a bounds assertion — rather than being
silently clamped, as `C5_counterexample` shows.) -/
theorem C5_amended {nx ny nz : ℕ} (cfg : CropConfig) (label_intensity : List ℤ)
    (tish aish alsh : Fin 3 → ℤ) (lbl : Vol nx ny nz) (rand : Fin 3 → ℤ → ℤ → ℤ)
    (hti : ∀ i, tish i = shape3 nx ny nz i)
    (hai : ∀ i, aish i = alsh i)
    (halsh : ∀ i, 0 ≤ alsh i ∧ alsh i < 32768)
    (hshape : ∀ i, shape3 nx ny nz i < 32768)
    (g : Geometry)
    (h : getitem_patch_geometry cfg label_intensity tish aish alsh lbl rand
          = Except.ok g) :
    ∀ i, 0 ≤ g.target_begin i ∧ g.target_end i ≤ shape3 nx ny nz i ∧
         0 ≤ g.atlas_begin i ∧ g.atlas_end i ≤ alsh i := by
  simp only [getitem_patch_geometry] at h
  split_ifs at h with h1 h2
  split at h
  · exact Except.noConfusion h
  · rename_i pc tc ac heq
    simp only [Except.ok.injEq] at h
    subst h
    simp only [select_patch_centers] at heq
    split_ifs at heq with hb1 hb2 hb3
    · simp [Prod.ext_iff] at heq
    · split at heq
      · exact Except.noConfusion heq
      · simp [Prod.ext_iff] at heq
    · split at heq
      · exact Except.noConfusion heq
      · split at heq
        · exact Except.noConfusion heq
        · simp [Prod.ext_iff] at heq
    · split at heq
      · exact Except.noConfusion heq
      · simp [Prod.ext_iff] at heq
    · simp only [Except.ok.injEq, Prod.ext_iff] at heq
      obtain ⟨-, htc, hac⟩ := heq
      rw [Option.some.injEq] at htc hac
      subst htc hac
      intro i
      have hA := h1 i
      have hB := h2 i
      have hsl := halsh i
      have hsh := hshape i
      have hs0 := shape3_nonneg nx ny nz i
      refine ⟨?_, ?_, ?_, ?_⟩ <;>
        · simp only [hti i, hai i, pyFloorDiv_two, int16] at hA hB ⊢
          omega
  · exact Except.noConfusion h

/-- The default crop configuration of the `__main__` self-test: patch
cropping with no fixed center, no random crop and no ROI constraint. -/
def cfgDefaultCenter : CropConfig :=
  { patch_size := fun _ => 2, patch_center := none,
    random_crop := false, crop_roi := false }

/-- The geometry the default volume-center policy computes on a `4x4x4`
volume with `patch_size = (2,2,2)`. -/
def geomW : Geometry :=
  { target_begin := fun _ => 1, target_end := fun _ => 3,
    atlas_begin := fun _ => 1, atlas_end := fun _ => 3,
    center_percent := fun i => ((2 : ℤ) : ℚ) / ((shape3 4 4 4 i : ℤ) : ℚ) }

/-- C5 (amended), witness: on a `4x4x4` volume with `patch_size = (2,2,2)`
and the default center policy, the computed geometry `[1, 3)` is within
bounds on every axis. -/
theorem C5_amended_witness :
    0 ≤ geomW.target_begin 0 ∧ geomW.target_end 0 ≤ shape3 4 4 4 0 ∧
    0 ≤ geomW.atlas_begin 0 ∧ geomW.atlas_end 0 ≤ (fun _ => (4 : ℤ)) 0 :=
  C5_amended cfgDefaultCenter [0, 205]
    (fun _ => 4) (fun _ => 4) (fun _ => 4) ((fun _ _ _ => 0) : Vol 4 4 4) (fun _ _ _ => 0)
    (by decide) (by decide) (by decide) (by decide) geomW (by rfl) 0

/-- `itertools.combinations(l, n)` emits `C(|l|, n)` combinations. -/
theorem combinations_length {α : Type} (l : List α) :
    ∀ n, (combinations n l).length = Nat.choose l.length n := by
  induction l with
  | nil => intro n; cases n <;> simp [combinations]
  | cons a l ih =>
    intro n
    cases n with
    | zero => simp [combinations]
    | succ m => simp [combinations, ih m, ih (m + 1), Nat.choose_succ_succ]

/-- Every element of a combination comes from the source pool. -/
theorem combinations_mem_subset {α : Type} (l : List α) :
    ∀ (n : ℕ) (c : List α), c ∈ combinations n l → ∀ a ∈ c, a ∈ l := by
  induction l with
  | nil =>
    intro n c hc a ha
    cases n with
    | zero =>
      simp only [combinations, List.mem_singleton] at hc
      subst hc
      simp at ha
    | succ m => simp [combinations] at hc
  | cons x l ih =>
    intro n c hc a ha
    cases n with
    | zero =>
      simp only [combinations, List.mem_singleton] at hc
      subst hc
      simp at ha
    | succ m =>
      simp only [combinations, List.mem_append, List.mem_map] at hc
      rcases hc with ⟨c', hc', rfl⟩ | hc
      · rcases List.mem_cons.mp ha with rfl | ha'
        · exact List.mem_cons_self _ _
        · exact List.mem_cons_of_mem x (ih m c' hc' a ha')
      · exact List.mem_cons_of_mem x (ih (m + 1) c hc a ha)

/-- Asking for more elements than the pool holds yields no combination. -/
theorem combinations_eq_nil_of_short {α : Type} (l : List α) (n : ℕ) (h : l.length < n) :
    combinations n l = [] := by
  have hlen := combinations_length l n
  rw [Nat.choose_eq_zero_of_lt h] at hlen
  exact List.length_eq_zero.mp hlen

/-- The single-stage pairing is the Cartesian product of the target list and
the combination list. -/
theorem single_pairs_eq_product (combs : List (List String)) (ts : List String) :
    single_pairs combs ts = ts ×ˢ combs := by
  induction ts with
  | nil => rfl
  | cons t ts ih => simp [single_pairs, List.product_cons, ih]

/-- Every atlas name appearing in a multi-stage pair contains the correlation
key of the pair's target. -/
theorem multi_pairs_atlas_filtered (ibegin iend : ℤ) (n : ℕ) (atlas_names : List String) :
    ∀ (ts : List String) (p : String × List String),
      p ∈ multi_pairs ibegin iend n atlas_names ts →
      ∀ a ∈ p.2, occursIn (correlation_key ibegin iend p.1) a.toList = true := by
  intro ts
  induction ts with
  | nil => intro p hp; simp [multi_pairs] at hp
  | cons t ts ih =>
    intro p hp a ha
    simp only [multi_pairs, List.mem_append, List.mem_map] at hp
    rcases hp with ⟨c, hc, rfl⟩ | hp
    · have hmem := combinations_mem_subset _ n c hc a ha
      exact (List.mem_filter.mp hmem).2
    · exact ih p hp a ha

/-- C8: in single-stage mode, the pairing returned by `_find_data_names` is
exactly the Cartesian product of the discovered targets with the size-`n`
combinations of the entire atlas pool; its length — the value `__len__`
reports — is `|targets| * C(|atlases|, n)`, which is `9` for 3 targets and 3
atlases with `n_atlas` 1 or 2. -/
theorem C8_single_stage_product (n : ℕ) (ibegin iend : ℤ)
    (tfiles afiles : List String) (suffix : String)
    (l : List (String × List String))
    (h : find_data_names Stage.single n ibegin iend tfiles afiles suffix = Except.ok l) :
    l = single_pairs
          (combinations n (afiles.filter (fun nm => occursIn suffix.toList nm.toList)))
          (tfiles.filter (fun nm => occursIn suffix.toList nm.toList)) ∧
    (∀ p : String × List String,
        p ∈ l ↔ p.1 ∈ tfiles.filter (fun nm => occursIn suffix.toList nm.toList) ∧
          p.2 ∈ combinations n (afiles.filter (fun nm => occursIn suffix.toList nm.toList))) ∧
    l.length = (tfiles.filter (fun nm => occursIn suffix.toList nm.toList)).length *
        Nat.choose (afiles.filter (fun nm => occursIn suffix.toList nm.toList)).length n ∧
    ((tfiles.filter (fun nm => occursIn suffix.toList nm.toList)).length = 3 →
     (afiles.filter (fun nm => occursIn suffix.toList nm.toList)).length = 3 →
     (n = 1 ∨ n = 2) → l.length = 9) := by
  simp only [find_data_names] at h
  split_ifs at h with h0
  simp only [Except.ok.injEq] at h
  subst h
  refine ⟨rfl, ?_, ?_, ?_⟩
  · intro p
    obtain ⟨p1, p2⟩ := p
    rw [single_pairs_eq_product, List.mem_product]
  · rw [single_pairs_eq_product, List.length_product, combinations_length]
  · intro h3t h3a hn
    rw [single_pairs_eq_product, List.length_product, combinations_length, h3t, h3a]
    rcases hn with rfl | rfl <;> decide

/-- The 9-element pairing of 3 targets and 3 atlases with `n_atlas = 1`. -/
def listC8 : List (String × List String) :=
  [("ai", ["xi"]), ("ai", ["yi"]), ("ai", ["zi"]),
   ("bi", ["xi"]), ("bi", ["yi"]), ("bi", ["zi"]),
   ("ci", ["xi"]), ("ci", ["yi"]), ("ci", ["zi"])]

/-- C8, witness: 3 targets and 3 atlases with `n_atlas = 1` produce exactly
9 sample keys. -/
theorem C8_single_stage_product_witness : listC8.length = 9 :=
  (C8_single_stage_product 1 0 (-1) ["ai", "bi", "ci"] ["xi", "yi", "zi"] "i"
    listC8 (by rfl)).2.2.2 (by rfl) (by rfl) (Or.inl rfl)

/-- C9: in multi-stage mode, every sample key pairs a target only with atlas
names containing the substring
`"target-" + target_basename[image_name_index_begin:image_name_index_end]`. -/
theorem C9_multi_stage_correlation (n : ℕ) (ibegin iend : ℤ)
    (tfiles afiles : List String) (suffix : String)
    (l : List (String × List String))
    (h : find_data_names Stage.multi n ibegin iend tfiles afiles suffix = Except.ok l) :
    ∀ p ∈ l, ∀ a ∈ p.2, occursIn (correlation_key ibegin iend p.1) a.toList = true := by
  simp only [find_data_names] at h
  split_ifs at h with h0
  simp only [Except.ok.injEq] at h
  subst h
  intro p hp
  exact multi_pairs_atlas_filtered ibegin iend n _ _ p hp

/-- C9, witness: the target `A-i` (correlation key `target-A` with the index
range `[0, 1)`) is paired with the atlas `target-A-i`, which contains the
key. -/
theorem C9_multi_stage_correlation_witness :
    occursIn (correlation_key 0 1 "A-i") "target-A-i".toList = true :=
  C9_multi_stage_correlation 1 0 1 ["A-i"] ["target-A-i"] "i"
    [("A-i", ["target-A-i"])] (by rfl) ("A-i", ["target-A-i"]) (by simp)
    "target-A-i" (by simp)

/-- C10: in single-stage mode, with at least one discovered target but fewer
discovered atlases than `n_atlas`, `_find_data_names` succeeds (no error) and
returns an empty pairing, so `__len__` reports 0. -/
theorem C10_insufficient_atlases_empty (n : ℕ) (ibegin iend : ℤ)
    (tfiles afiles : List String) (suffix : String)
    (ht : tfiles.filter (fun nm => occursIn suffix.toList nm.toList) ≠ [])
    (ha : (afiles.filter (fun nm => occursIn suffix.toList nm.toList)).length < n) :
    ∃ l, find_data_names Stage.single n ibegin iend tfiles afiles suffix = Except.ok l ∧
      l.length = 0 := by
  have hc : combinations n (afiles.filter (fun nm => occursIn suffix.toList nm.toList)) = [] :=
    combinations_eq_nil_of_short _ n ha
  refine ⟨single_pairs
      (combinations n (afiles.filter (fun nm => occursIn suffix.toList nm.toList)))
      (tfiles.filter (fun nm => occursIn suffix.toList nm.toList)), ?_, ?_⟩
  · simp only [find_data_names]
    rw [if_neg (fun h0 => ht (List.length_eq_zero.mp h0))]
  · rw [single_pairs_eq_product, List.length_product, hc]
    simp

/-- C10, witness: one target and one atlas with `n_atlas = 2` yield a
successfully constructed, empty dataset. -/
theorem C10_insufficient_atlases_empty_witness :
    ∃ l, find_data_names Stage.single 2 0 (-1) ["ai"] ["xi"] "i" = Except.ok l ∧
      l.length = 0 :=
  C10_insufficient_atlases_empty 2 0 (-1) ["ai"] ["xi"] "i" (by decide) (by decide)

end ImageDataset
